import Mathlib

/-!
Shallow embedding of the commserver scraping/ingestion pipeline
(src/scrapers/ScraperManager.js and src/scrapers/platforms/RedditScraper.js)
together with proofs about its specified properties.

Modelling conventions:
* JavaScript strings are Lean `String`s; character-level operations work on
  `List Char`.  Whitespace is the ASCII subset of the JS `\s` class.
* Dates are modelled as Unix timestamps in seconds (`Nat`); the code converts
  `lastScrapedAt` to seconds with `_toUnixSeconds` before comparing with
  Reddit's `created_utc`, so seconds are the common clock.
* JS falsiness on option-valued numeric fields is modelled explicitly: the
  pattern `x || d` is `jsOrN` / `jsOrQ` (0 and `undefined` are falsy); on
  strings the pattern `s || t` is `jsOrS` (the empty string is falsy).
* HTTP traffic is modelled as a trace: a list of upstream responses consumed
  one per request.  A `429` response and other HTTP failures are trace
  elements.  An exhausted trace is reported as a distinguished error.
* `Math.random()`-based choices are injected as explicit `Nat → Nat` choice
  functions (used modulo the relevant range), indexed by a call counter.
* Collaborators whose source is not part of this tree are parameters of the
  environment, modelled from the spec:
  - `ContentProcessor.calculateQualityScore` (spec 4.5): a parameter
    `qs : Item → ℚ`, deterministic and pure.
  - `ContentValidator.validateAuthenticity` (spec 4.4): a parameter
    returning a boolean gate, a reason and a score.
  - `ContentProcessor.processContent` / `processAuthenticContent` (spec 4.3):
    parameters producing the processed title/content/tags.
  - `ScrapingUtils.isImageUrl`: a predicate parameter on URLs.
  - `CommentGeneratorService` and `autoLikeService` (spec 6): best-effort
    side effects that do not touch the Post collection fields we model;
    they are no-ops here.
The persisted Post collection is threaded through the model as an explicit
`List PostRec`; `Post.create` appends to it.
-/

/-! ## JS string primitives -/

/-- ASCII part of the JS whitespace class `\s`. -/
def isJsWs (c : Char) : Bool :=
  c = ' ' || c = '\t' || c = '\n' || c = '\r' || c = '\x0b' || c = '\x0c'

/-- JS `\w` word characters. -/
def isWordChar (c : Char) : Bool :=
  c.isAlphanum || c = '_'

/-- List-level prefix test. -/
def startsWithL : List Char → List Char → Bool
  | [], _ => true
  | _ :: _, [] => false
  | a :: as, b :: bs => a = b && startsWithL as bs

/-- JS `String.prototype.includes` on char lists. -/
def containsSub (needle : List Char) : List Char → Bool
  | [] => startsWithL needle []
  | c :: rest => startsWithL needle (c :: rest) || containsSub needle rest

/-- Index of the first occurrence of `needle` (as in a regex search). -/
def idxOfSub (needle : List Char) : List Char → Option Nat
  | [] => if startsWithL needle [] then some 0 else none
  | c :: rest =>
    if startsWithL needle (c :: rest) then some 0
    else (idxOfSub needle rest).map (· + 1)

/-- JS `String.prototype.trim` on char lists. -/
def jsTrimL (cs : List Char) : List Char :=
  ((cs.dropWhile isJsWs).reverse.dropWhile isJsWs).reverse

/-- JS `String.prototype.trim`. -/
def jsTrim (s : String) : String :=
  ⟨jsTrimL s.toList⟩

/-- JS `String.prototype.toLowerCase` (ASCII). -/
def jsToLower (s : String) : String :=
  ⟨s.toList.map Char.toLower⟩

/-- JS `a || b` for strings: the empty string is falsy. -/
def jsOrS (a b : String) : String :=
  if a = "" then b else a

/-- JS `x || d` for an optional natural (0 and `undefined` are falsy). -/
def jsOrN (x : Option Nat) (d : Nat) : Nat :=
  match x with
  | none => d
  | some n => if n = 0 then d else n

/-- JS `x || d` for an optional rational (0 and `undefined` are falsy). -/
def jsOrQ (x : Option ℚ) (d : ℚ) : ℚ :=
  match x with
  | none => d
  | some q => if q = 0 then d else q

/-- Replace every `&amp;` by `&` (the `.replace(/&amp;/g, "&")` calls). -/
def replaceAmpL : List Char → List Char
  | '&' :: 'a' :: 'm' :: 'p' :: ';' :: rest => '&' :: replaceAmpL rest
  | c :: rest => c :: replaceAmpL rest
  | [] => []

/-- String form of `replaceAmpL`. -/
def replaceAmp (s : String) : String :=
  ⟨replaceAmpL s.toList⟩

/-! ## RedditScraper.enhanceTitle -/

/-- Length matched by the alternation `PSA:|LPT:|TIL:|DAE:|TIFU:|AMA:?`
applied case-insensitively at the start of the title. -/
def redditPreMatchLen (cs : List Char) : Option Nat :=
  let ls := cs.map Char.toLower
  if startsWithL "psa:".toList ls then some 4
  else if startsWithL "lpt:".toList ls then some 4
  else if startsWithL "til:".toList ls then some 4
  else if startsWithL "dae:".toList ls then some 4
  else if startsWithL "tifu:".toList ls then some 5
  else if startsWithL "ama:".toList ls then some 4
  else if startsWithL "ama".toList ls then some 3
  else none

/-- `.replace(/^(PSA:|LPT:|TIL:|DAE:|TIFU:|AMA:?)\s*/i, "")`. -/
def stripRedditTag (cs : List Char) : List Char :=
  match redditPreMatchLen cs with
  | some n => (cs.drop n).dropWhile isJsWs
  | none => cs

/-- `.replace(/^\[.*?\]\s*/, "")`: a leading bracketed group with no newline
inside is removed together with following whitespace. -/
def stripBracketTag (cs : List Char) : List Char :=
  match cs with
  | '[' :: rest =>
    let seg := rest.takeWhile (fun c => c ≠ ']')
    match rest.drop seg.length with
    | _ :: tail =>
      if seg.all (fun c => c ≠ '\n') then tail.dropWhile isJsWs else cs
    | [] => cs
  | _ => cs

/-- `RedditScraper.enhanceTitle`. -/
def enhanceTitle (originalTitle : String) : String :=
  if originalTitle = "" then "Discussion Post"
  else
    let e := jsTrimL (stripBracketTag (stripRedditTag originalTitle.toList))
    if e = [] then originalTitle else ⟨e⟩

/-! ## RedditScraper content enhancement -/

/-- The `contextualPhrases` lookup table of `generateContentFromContext`,
keyed by lower-cased subreddit. -/
def contextualPhrase (sub : String) : Option String :=
  if sub = "entrepreneur" then
    some "Looking for insights and experiences from fellow entrepreneurs."
  else if sub = "business" then
    some "Seeking advice and perspectives from the business community."
  else if sub = "startups" then
    some "Would love to hear thoughts from other startup founders."
  else if sub = "smallbusiness" then
    some "Any other small business owners have similar experiences?"
  else if sub = "marketing" then
    some "Interested in hearing different marketing approaches to this."
  else if sub = "investing" then
    some "What are your thoughts on this from an investment perspective?"
  else none

/-- The default prompt sentence of `generateContentFromContext`. -/
def defaultPhrase : String :=
  "What are your thoughts and experiences with this?"

/-- `RedditScraper.generateContentFromContext`, as a function of the post
title and subreddit. -/
def generateContentFromContext (title sub : String) : String :=
  title ++ "\n\n" ++ ((contextualPhrase (jsToLower sub)).getD defaultPhrase)

/-- The four canned filler sentences of `expandShortContent`. -/
def expansions : List String :=
  [ "I've been thinking about this lately and wanted to get the community's perspective.",
    "This has been on my mind and I'd love to hear different viewpoints.",
    "I'm curious about others' experiences with this topic.",
    "Looking for insights from people who might have dealt with something similar." ]

/-- `RedditScraper.expandShortContent`; `r` is the `Math.random()` draw for
the filler pick. -/
def expandShortContent (r : Nat) (content : String) : String :=
  if content.length ≥ 50 then content
  else content ++ "\n\n" ++ expansions.getD (r % 4) ""

/-- Truncate a line at the first case-insensitive occurrence of `needle`
(the `/X:.*$/gim` replacements, applied per line). -/
def truncAtCI (needle : String) (line : List Char) : List Char :=
  match idxOfSub needle.toList (line.map Char.toLower) with
  | some i => line.take i
  | none => line

/-- Does the line match `/^\s*EDIT\s*:/i`? -/
def isEditLine (line : List Char) : Bool :=
  let rest := line.dropWhile isJsWs
  if startsWithL "edit".toList (rest.map Char.toLower) then
    match (rest.drop 4).dropWhile isJsWs with
    | ':' :: _ => true
    | _ => false
  else false

/-- The four annotation-stripping replacements of `enhanceContent`,
line by line. -/
def cleanupLine (line : List Char) : List Char :=
  let l1 := truncAtCI "edit:" line
  let l2 := truncAtCI "update:" l1
  let l3 := truncAtCI "tl;dr:" l2
  if isEditLine l3 then [] else l3

/-- Split on newline characters (JS `split`-like; structural so that
concrete evaluation reduces). -/
def splitLinesL : List Char → List (List Char)
  | [] => [[]]
  | c :: rest =>
    if c = '\n' then [] :: splitLinesL rest
    else
      match splitLinesL rest with
      | l :: ls => (c :: l) :: ls
      | [] => [[c]]

/-- Join lines with newline separators. -/
def joinLinesL : List (List Char) → List Char
  | [] => []
  | [l] => l
  | l :: ls => l ++ '\n' :: joinLinesL ls

/-- Apply `cleanupLine` to every `\n`-separated line of the body. -/
def cleanupEditNotes (s : String) : String :=
  ⟨joinLinesL ((splitLinesL s.toList).map cleanupLine)⟩

/-- `RedditScraper.enhanceContent`, as a function of the incoming body,
the post title and subreddit (`r` is the random filler draw). -/
def enhanceContent (r : Nat) (orig : String) (title sub : String) : String :=
  if jsTrim orig = "" then generateContentFromContext title sub
  else
    let e := jsTrim (cleanupEditNotes orig)
    let e2 := if e.length < 50 then expandShortContent r e else e
    if e2 = "" then orig else e2

/-! ## Raw Reddit data and the transformer -/

/-- A Reddit listing child's `data` object (the fields the scraper reads).
Nested optional chains (`preview?.images?.[0]?.source?.url`,
`media?.reddit_video?.fallback_url`, gallery `media_metadata` values'
`s?.u`) are flattened into options. -/
structure RawPost where
  id : String
  title : String
  selftext : String
  author : String
  created_utc : Nat
  ups : Nat
  num_crossposts : Nat
  score : Nat
  ratioQ : ℚ
  stickied : Bool
  permalink : String
  subreddit : String
  link_flair_text : Option String
  thumbnail : Option String
  previewSrc : Option String
  linkUrl : Option String
  is_video : Bool
  videoFallback : Option String
  is_gallery : Bool
  galleryUrls : List (Option String)
deriving DecidableEq

/-- One extracted media descriptor. -/
structure MediaRef where
  kind : String
  url : String
deriving DecidableEq

/-- `RedditScraper.extractThumbnail`. -/
def extractThumbnail (p : RawPost) : Option String :=
  let fromPreview := p.previewSrc.map replaceAmp
  match p.thumbnail with
  | some t => if t ≠ "" && t ≠ "self" && t ≠ "default" then some t else fromPreview
  | none => fromPreview

/-- `RedditScraper.extractMediaUrls`; `isImg` models
`ScrapingUtils.isImageUrl` (source not in this tree). -/
def extractMediaUrls (isImg : String → Bool) (p : RawPost) : List MediaRef :=
  (match p.linkUrl with
   | some u => if u ≠ "" && isImg u then [⟨"image", u⟩] else []
   | none => []) ++
  (if p.is_video then
      match p.videoFallback with
      | some f => [⟨"video", f⟩]
      | none => []
    else []) ++
  (if p.is_gallery then
      p.galleryUrls.filterMap (fun o => o.map (fun u => ⟨"image", replaceAmp u⟩))
    else [])

/-- Scan `#\w+` hashtag matches (global, non-overlapping).  Structural on
an explicit fuel (every step consumes at least one character, so a fuel of
the input length is enough); kernel-reducible for concrete inputs. -/
def hashtagScanF : Nat → List Char → List (List Char)
  | 0, _ => []
  | _ + 1, [] => []
  | f + 1, '#' :: rest =>
    let w := rest.takeWhile isWordChar
    if w = [] then hashtagScanF f rest
    else ('#' :: w) :: hashtagScanF f (rest.drop w.length)
  | f + 1, _ :: rest => hashtagScanF f rest

/-- Scan `#\w+` hashtag matches (global, non-overlapping). -/
def hashtagScan (cs : List Char) : List (List Char) :=
  hashtagScanF cs.length cs

/-- De-duplicate preserving first occurrences (`[...new Set(tags)]`),
with a seen-accumulator. -/
def dedupGo (seen : List String) : List String → List String
  | [] => []
  | x :: xs => if x ∈ seen then dedupGo seen xs else x :: dedupGo (x :: seen) xs

/-- De-duplicate preserving first occurrences (`[...new Set(tags)]`). -/
def dedupFirst (l : List String) : List String :=
  dedupGo [] l

/-- `RedditScraper.extractTags`. -/
def extractTags (p : RawPost) : List String :=
  let t1 : List String := if p.subreddit ≠ "" then [jsToLower p.subreddit] else []
  let t2 : List String :=
    match p.link_flair_text with
    | some f => if f ≠ "" then [jsToLower f] else []
    | none => []
  let hs : List String :=
    (hashtagScan (p.title ++ " " ++ p.selftext).toList).map
      (fun h => (⟨(h.map Char.toLower).drop 1⟩ : String))
  dedupFirst (t1 ++ t2 ++ hs)

/-- The transformer's output item (the shape produced by
`transformRedditPost`).  `stickied`/`pinned` are not set by the transformer
(JS `undefined`); they are `false` here, matching how `filterNewContent`
reads them. -/
structure Item where
  id : String
  title : String
  content : String
  url : String
  author : String
  createdUtc : Nat
  likes : Nat
  comments : Nat
  shares : Nat
  views : Nat
  thumbnail : Option String
  mediaUrls : List MediaRef
  tags : List String
  platform : String
  subreddit : String
  score : Nat
  ratioQ : ℚ
  stickied : Bool
  pinned : Bool
deriving DecidableEq

/-- `RedditScraper.transformRedditPost` (with `r` the random filler draw
used by `enhanceContent`). -/
def transformRedditPost (isImg : String → Bool) (r : Nat) (p : RawPost) : Item :=
  { id := p.id
    title := enhanceTitle p.title
    content := enhanceContent r (jsOrS p.selftext p.title) p.title p.subreddit
    url := "https://www.reddit.com" ++ p.permalink
    author := p.author
    createdUtc := p.created_utc
    likes := p.ups
    comments := 0
    shares := p.num_crossposts
    views := 0
    thumbnail := extractThumbnail p
    mediaUrls := extractMediaUrls isImg p
    tags := extractTags p
    platform := "reddit"
    subreddit := p.subreddit
    score := p.score
    ratioQ := p.ratioQ
    stickied := false
    pinned := false }

/-! ## RedditScraper.fetchRedditPosts over a response trace -/

/-- One upstream response to a listing-page request.  `ok` carries the
page's children (each child's `data`, absent as `none`) and the `after`
cursor; `rl429` is an HTTP 429; `httpErr` is any other HTTP/network
failure. -/
inductive PageResp where
  | ok (children : List (Option RawPost)) (after : Option String)
  | rl429
  | httpErr
deriving DecidableEq

/-- Errors surfacing from the listing fetch.  `noResp` marks an exhausted
response trace (the model has no answer for a request the code would
make). -/
inductive FetchErr where
  | badUrl
  | http
  | noResp
deriving DecidableEq

/-- Is the `minCreatedUtc && created_utc <= minCreatedUtc` guard satisfied?
JS falsiness: an absent or zero watermark disables the check. -/
def isOldItem (minC : Option Nat) (created : Nat) : Bool :=
  match minC with
  | none => false
  | some m => m ≠ 0 && created ≤ m

/-- The inner `for (const child of children)` loop of `fetchRedditPosts`:
returns the grown accumulator and the `reachedOlderThanMin` flag.  The
loop breaks once `limit` items are collected, and keeps scanning the
page after marking an old item. -/
def processChildren (isImg : String → Bool) (rnd : Nat → Nat) (excl : Bool)
    (minC : Option Nat) (limit : Nat) :
    List (Option RawPost) → List Item → Bool → List Item × Bool
  | [], acc, reached => (acc, reached)
  | none :: rest, acc, reached => processChildren isImg rnd excl minC limit rest acc reached
  | some d :: rest, acc, reached =>
    if excl && d.stickied then
      processChildren isImg rnd excl minC limit rest acc reached
    else if isOldItem minC d.created_utc then
      processChildren isImg rnd excl minC limit rest acc true
    else
      let acc' := acc ++ [transformRedditPost isImg (rnd acc.length) d]
      if limit ≤ acc'.length then (acc', reached)
      else processChildren isImg rnd excl minC limit rest acc' reached

/-- `RedditScraper.fetchRedditPosts`.  One trace element is consumed per
HTTP request.  On a 429 the code sleeps 5s and retries recursively with
the same cursor, the full original `limit` and a fresh (empty)
accumulator; any other HTTP failure propagates. -/
def fetchRedditPosts (isImg : String → Bool) (rnd : Nat → Nat) (excl : Bool)
    (minC : Option Nat) (limit : Nat) :
    List PageResp → Option String → List Item →
    Except FetchErr (List Item × Option String)
  | trace, cursor, acc =>
    if limit ≤ acc.length then .ok (acc, cursor)
    else
      match trace with
      | [] => .error .noResp
      | .rl429 :: rest =>
        fetchRedditPosts isImg rnd excl minC limit rest cursor []
      | .httpErr :: _ => .error .http
      | .ok children aft :: rest =>
        if children = [] then .ok (acc, cursor)
        else
          let pr := processChildren isImg rnd excl minC limit children acc false
          match aft with
          | none => .ok (pr.1, none)
          | some a =>
            if pr.2 || limit ≤ pr.1.length then .ok (pr.1, some a)
            else fetchRedditPosts isImg rnd excl minC limit rest (some a) pr.1

/-! ## RedditScraper.extractSubreddit and keyword matching -/

/-- The regex search `/\/r\/([^\/\?]+)/`: the first position where
`/r/` is followed by at least one character other than `/` or `?`.
Structural on an explicit fuel (one character per step). -/
def extractSubredditF : Nat → List Char → Option (List Char)
  | 0, _ => none
  | _ + 1, [] => none
  | f + 1, '/' :: 'r' :: '/' :: rest =>
    let cap := rest.takeWhile (fun c => c ≠ '/' && c ≠ '?')
    if cap = [] then extractSubredditF f ('r' :: '/' :: rest)
    else some cap
  | f + 1, _ :: rest => extractSubredditF f rest

/-- `RedditScraper.extractSubreddit`. -/
def extractSubreddit (url : String) : Option String :=
  (extractSubredditF url.toList.length url.toList).map (fun cs => ⟨cs⟩)

/-- `RedditScraper.matchesKeywords`: some keyword occurs case-insensitively
in title, content and space-joined tags. -/
def matchesKeywords (post : Item) (keywords : List String) : Bool :=
  let searchText :=
    jsToLower (post.title ++ " " ++ post.content ++ " " ++ String.intercalate " " post.tags)
  keywords.any (fun k => containsSub (jsToLower k).toList searchText.toList)

/-- Arguments of `RedditScraper.scrapeContent` (the config fields it
reads; `sort` and `authenticityMode` do not affect the result given a
fixed response trace). -/
structure ScrapeArgs where
  sourceUrl : String
  keywords : List String
  maxPosts : Nat
  excludeStickied : Bool
  minCreatedUtc : Option Nat
deriving DecidableEq

/-- `RedditScraper.scrapeContent`. -/
def scrapeContent (isImg : String → Bool) (rnd : Nat → Nat)
    (trace : List PageResp) (a : ScrapeArgs) : Except FetchErr (List Item) :=
  match extractSubreddit a.sourceUrl with
  | none => .error .badUrl
  | some _ =>
    match fetchRedditPosts isImg rnd a.excludeStickied a.minCreatedUtc a.maxPosts trace none [] with
    | .error e => .error e
    | .ok (posts, _) =>
      let filtered :=
        if a.keywords ≠ [] then posts.filter (fun p => matchesKeywords p a.keywords)
        else posts
      .ok (filtered.take a.maxPosts)

/-! ## RedditScraper.scrapePostComments over a response trace -/

/-- A Reddit comment child's `data` object (the fields read). -/
structure RawComment where
  id : String
  body : String
  author : String
  created_utc : Nat
  ups : Nat
  parent_id : String
deriving DecidableEq

/-- `RedditScraper.transformRedditComment` output. -/
structure CommentOut where
  id : String
  content : String
  author : String
  createdUtc : Nat
  likes : Nat
  parentId : String
  platform : String
deriving DecidableEq

/-- `RedditScraper.transformRedditComment`. -/
def transformRedditComment (c : RawComment) : CommentOut :=
  { id := c.id
    content := c.body
    author := c.author
    createdUtc := c.created_utc
    likes := c.ups
    parentId := c.parent_id
    platform := "reddit" }

/-- One upstream response to a comment request.  `ok none` models a
malformed envelope (`response.data` not an array of length ≥ 2, or no
`children`); `ok (some children)` carries the comment children, each
child's `data` possibly absent. -/
inductive CResp where
  | ok (payload : Option (List (Option RawComment)))
  | rl429
  | httpErr
deriving DecidableEq

/-- `RedditScraper.scrapePostComments`: drops deleted/empty bodies; on 429
sleeps 10s and retries by recursing; any other failure (including an
exhausted trace) yields `[]`. -/
def scrapePostComments (limit : Nat) : List CResp → List CommentOut
  | [] => []
  | .ok none :: _ => []
  | .ok (some children) :: _ =>
    (children.filterMap (fun c? =>
        match c? with
        | some c =>
          if c.body ≠ "" && c.body ≠ "[deleted]" then some (transformRedditComment c)
          else none
        | none => none)).take limit
  | .rl429 :: rest => scrapePostComments limit rest
  | .httpErr :: _ => []

/-! ## Persisted data model (Post and Community collections) -/

/-- A persisted `Post` document (the fields the scraper writes/queries). -/
structure PostRec where
  title : String
  content : String
  sourceUrl : String
  platform : String
  originalId : String
  communityId : String
  ownerId : String
  likes : Nat
  comments : Nat
  shares : Nat
  views : Nat
  qualityScore : ℚ
  authenticityScore : Option ℚ
  originalAuthor : String
  originalCreatedUtc : Nat
  tags : List String
  contentType : String
  isAuthentic : Bool
  validationMethod : String
  thumbnail : Option String
  mediaUrls : List MediaRef
  status : String
deriving DecidableEq

/-- One `scrapingPlatforms` entry of a community. -/
structure PlatformConfig where
  platform : String
  sourceUrl : String
  keywords : List String
  isActive : Bool
deriving DecidableEq

/-- A community's `scrapingConfig` subdocument. -/
structure ScrapingConfig where
  maxPostsPerScrape : Option Nat
  qualityThreshold : Option ℚ
deriving DecidableEq

/-- A `Community` document (the fields the scraper reads/updates);
`lastScrapedAt` in Unix seconds, `none` when never scraped. -/
structure Community where
  id : String
  name : String
  isActive : Bool
  scrapingPlatforms : List PlatformConfig
  lastScrapedAt : Option Nat
  postCount : Nat
  scrapingConfig : Option ScrapingConfig
deriving DecidableEq

/-- Result of `ContentValidator.validateAuthenticity` (spec 4.4; source not
in this tree). -/
structure VResult where
  valid : Bool
  reason : String
  score : ℚ
deriving DecidableEq

/-- Output shape of `ContentProcessor.processContent` (fields read by the
bulk create path; source not in this tree). -/
structure Proc1 where
  title : String
  content : String
  tags : List String
deriving DecidableEq

/-- Output shape of `ContentProcessor.processAuthenticContent` (fields read
by the authentic create path; source not in this tree). -/
structure Proc2 where
  title : String
  content : String
  tags : List String
  contentType : String
  mediaUrls : List MediaRef
deriving DecidableEq

/-- The environment of a run: external collaborators, random draws, the
upstream response traces (keyed by community id and source URL), the
platform-user pool, the community store and the wall clock. -/
structure Env where
  lookup : String → Option Community
  trace : String → String → List PageResp
  users : List String
  qs : Item → ℚ
  validator : Item → VResult
  proc : Item → Proc1
  procA : Item → Proc2
  isImg : String → Bool
  rndFill : Nat → Nat
  rndUser : Nat → Nat
  rndLike : Nat → Nat
  now : Nat

/-! ## ScraperManager.filterNewContent -/

/-- The `$or` matcher used by the existence pre-checks:
`{platform, originalId: c.id}` or `{sourceUrl: c.url}`. -/
def postMatches (platform : String) (c : Item) (p : PostRec) : Bool :=
  (p.platform = platform && p.originalId = c.id) || p.sourceUrl = c.url

/-- `ScraperManager.filterNewContent` (the per-item existence checks of the
`Promise.all` keep their input order). -/
def filterNewContent (corpus : List PostRec) (items : List Item) (platform : String) : List Item :=
  ((items.map (fun c =>
      (c, !(corpus.any (postMatches platform c)) && !(c.stickied || c.pinned)))).filter
    (fun r => r.2)).map (fun r => r.1)

/-- The deduplication predicate as the specification states it (claim C2):
no persisted record matches `(platform, originalId)`, none matches the
item's source URL, and the item is not stickied/pinned. -/
def isNewSpec (corpus : List PostRec) (platform : String) (c : Item) : Bool :=
  corpus.all (fun p => !(p.platform = platform && p.originalId = c.id)) &&
  corpus.all (fun p => p.sourceUrl ≠ c.url) &&
  !c.stickied && !c.pinned

/-! ## ScraperManager creation paths -/

/-- Output of the create loops (JS destructures
`{postsCreated, createdItems, skippedExisting, skippedLowQuality}`).
`corpus` is the Post collection after the loop, `createdRecords` the
documents inserted by it. -/
structure CreateOut where
  postsCreated : Nat
  createdItems : List Item
  skippedExisting : Nat
  skippedLowQuality : Nat
  corpus : List PostRec
  createdRecords : List PostRec
deriving DecidableEq

/-- The resolved bulk quality threshold
`community.scrapingConfig?.qualityThreshold || 0.5`. -/
def bulkThreshold (comm : Community) : ℚ :=
  jsOrQ (comm.scrapingConfig.bind (fun sc => sc.qualityThreshold)) (mkRat 1 2)

/-- The resolved authentic-mode quality threshold
`community.scrapingConfig?.qualityThreshold || 0.6`. -/
def authThreshold (comm : Community) : ℚ :=
  jsOrQ (comm.scrapingConfig.bind (fun sc => sc.qualityThreshold)) (mkRat 3 5)

/-- The `Post.create` document built by `createPostsFromScrapedContent`
(`i` indexes the random draws for owner and seeded like count). -/
def mkScrapedRec (env : Env) (comm : Community) (platform : String)
    (i : Nat) (score : ℚ) (c : Item) : PostRec :=
  { title := (env.proc c).title
    content := (env.proc c).content
    sourceUrl := c.url
    platform := platform
    originalId := c.id
    communityId := comm.id
    ownerId := env.users.getD (env.rndUser i % env.users.length) ""
    likes := 5 + env.rndLike i % 11
    comments := 0
    shares := c.shares
    views := c.views
    qualityScore := score
    authenticityScore := none
    originalAuthor := c.author
    originalCreatedUtc := c.createdUtc
    tags := (env.proc c).tags
    contentType := "general"
    isAuthentic := true
    validationMethod := "real_api_scraping"
    thumbnail := c.thumbnail
    mediaUrls := c.mediaUrls
    status := "active" }

/-- `ScraperManager.createPostsFromScrapedContent`: per surviving item,
re-check existence, gate on the quality score, then insert. -/
def createPostsFromScrapedContent (env : Env) (comm : Community)
    (platform : String) : List Item → List PostRec → Nat → CreateOut
  | [], corpus, _ =>
    { postsCreated := 0, createdItems := [], skippedExisting := 0
      skippedLowQuality := 0, corpus := corpus, createdRecords := [] }
  | c :: rest, corpus, i =>
    if corpus.any (postMatches platform c) then
      let o := createPostsFromScrapedContent env comm platform rest corpus (i + 1)
      { o with skippedExisting := o.skippedExisting + 1 }
    else
      let score := env.qs c
      if score < bulkThreshold comm then
        let o := createPostsFromScrapedContent env comm platform rest corpus (i + 1)
        { o with skippedLowQuality := o.skippedLowQuality + 1 }
      else
        let d := mkScrapedRec env comm platform i score c
        let o := createPostsFromScrapedContent env comm platform rest (corpus ++ [d]) (i + 1)
        { o with
            postsCreated := o.postsCreated + 1
            createdItems := c :: o.createdItems
            createdRecords := d :: o.createdRecords }

/-- An item surviving `validateAuthenticContent` (JS spreads
`{...content, qualityScore, authenticityScore}`). -/
structure AuthItem where
  item : Item
  qualityScore : ℚ
  authenticityScore : ℚ
deriving DecidableEq

/-- The `Post.findOne` `$or` matcher of `validateAuthenticContent`
(`{sourceUrl}` or `{originalId, platform: content.platform}`). -/
def postMatchesAuth (c : Item) (p : PostRec) : Bool :=
  p.sourceUrl = c.url || (p.originalId = c.id && p.platform = c.platform)

/-- The loop of `ScraperManager.validateAuthenticContent`: drop duplicates,
drop items failing the authenticity gate, drop items below the authentic
threshold, and stop after `maxPosts` survivors. -/
def validateAuthGo (env : Env) (corpus : List PostRec) (comm : Community)
    (maxPosts : Nat) : List Item → Nat → List AuthItem
  | [], _ => []
  | c :: rest, cnt =>
    if corpus.any (postMatchesAuth c) then
      validateAuthGo env corpus comm maxPosts rest cnt
    else
      let v := env.validator c
      if !v.valid then validateAuthGo env corpus comm maxPosts rest cnt
      else
        let score := env.qs c
        if score < authThreshold comm then
          validateAuthGo env corpus comm maxPosts rest cnt
        else
          let a : AuthItem := ⟨c, score, v.score⟩
          if maxPosts ≤ cnt + 1 then [a]
          else a :: validateAuthGo env corpus comm maxPosts rest (cnt + 1)

/-- `ScraperManager.validateAuthenticContent`. -/
def validateAuthenticContent (env : Env) (corpus : List PostRec)
    (comm : Community) (maxPosts : Nat) (scraped : List Item) : List AuthItem :=
  validateAuthGo env corpus comm maxPosts scraped 0

/-- The `Post.create` document built by `createPostsFromAuthenticContent`. -/
def mkAuthRec (env : Env) (comm : Community) (platform : String)
    (i : Nat) (a : AuthItem) : PostRec :=
  { title := (env.procA a.item).title
    content := (env.procA a.item).content
    sourceUrl := a.item.url
    platform := platform
    originalId := a.item.id
    communityId := comm.id
    ownerId := env.users.getD (env.rndUser i % env.users.length) ""
    likes := 5 + env.rndLike i % 11
    comments := 0
    shares := a.item.shares
    views := a.item.views
    qualityScore := a.qualityScore
    authenticityScore := some a.authenticityScore
    originalAuthor := a.item.author
    originalCreatedUtc := a.item.createdUtc
    tags := (env.procA a.item).tags
    contentType := (env.procA a.item).contentType
    isAuthentic := true
    validationMethod := "enhanced_validation"
    thumbnail := a.item.thumbnail
    mediaUrls := (env.procA a.item).mediaUrls
    status := "active" }

/-- `ScraperManager.createPostsFromAuthenticContent`: existence re-check
then insert; this loop has no quality gate of its own and never touches
`skippedLowQuality`. -/
def createPostsFromAuthenticContent (env : Env) (comm : Community)
    (platform : String) : List AuthItem → List PostRec → Nat → CreateOut
  | [], corpus, _ =>
    { postsCreated := 0, createdItems := [], skippedExisting := 0
      skippedLowQuality := 0, corpus := corpus, createdRecords := [] }
  | a :: rest, corpus, i =>
    if corpus.any (postMatches platform a.item) then
      let o := createPostsFromAuthenticContent env comm platform rest corpus (i + 1)
      { o with skippedExisting := o.skippedExisting + 1 }
    else
      let d := mkAuthRec env comm platform i a
      let o := createPostsFromAuthenticContent env comm platform rest (corpus ++ [d]) (i + 1)
      { o with
          postsCreated := o.postsCreated + 1
          createdItems := a.item :: o.createdItems
          createdRecords := d :: o.createdRecords }

/-! ## ScraperManager community-level flows -/

/-- One `platformResults` entry. -/
structure PlatformResult where
  platform : String
  postsCreated : Nat
  skippedExisting : Nat
  skippedLowQuality : Nat
  success : Bool
  errMsg : Option String
deriving DecidableEq

/-- The entry pushed by the per-config `catch` branch. -/
def failEntry (platform msg : String) : PlatformResult :=
  { platform := platform, postsCreated := 0, skippedExisting := 0
    skippedLowQuality := 0, success := false, errMsg := some msg }

/-- The message of the wrapping `Reddit scraping failed:` error thrown by
`scrapeContent`. -/
def fetchMsg : FetchErr → String
  | .badUrl => "Reddit scraping failed: Invalid Reddit URL - could not extract subreddit"
  | .http => "Reddit scraping failed: Request failed"
  | .noResp => "Reddit scraping failed: No response"

/-- Result of one community's run (JS returns `{communityId, communityName,
postsCreated (or totalPosts), platformResults}`); `community` is the
document after the final `findByIdAndUpdate`, `corpus` the Post
collection after the run and `createdRecords` the documents it added. -/
structure RunOut where
  communityId : String
  communityName : String
  totalPostsCreated : Nat
  platformResults : List PlatformResult
  community : Community
  corpus : List PostRec
  createdRecords : List PostRec
deriving DecidableEq

/-- The `scrapeContent` call made for one source config of a community in
bulk (`single = false`, cap `maxPostsPerScrape || 50`) or single-post
(`single = true`, cap 5) mode, with the watermark
`since = _toUnixSeconds(lastScrapedAt)`. -/
def stageFetch (env : Env) (comm : Community) (id : String)
    (single : Bool) (cfg : PlatformConfig) : Except FetchErr (List Item) :=
  scrapeContent env.isImg env.rndFill (env.trace id cfg.sourceUrl)
    { sourceUrl := cfg.sourceUrl
      keywords := cfg.keywords
      maxPosts := if single then 5 else jsOrN (comm.scrapingConfig.bind (fun sc => sc.maxPostsPerScrape)) 50
      excludeStickied := true
      minCreatedUtc := comm.lastScrapedAt }

/-- The `for (const platformConfig of community.scrapingPlatforms)` loop
shared verbatim by `scrapeCommunity` and `scrapeSinglePostPerPlatform`
(they differ only in the fetch cap and the `.slice(0, 1)` after
deduplication).  Returns (total created, platformResults, corpus,
created documents). -/
def runConfigsGo (env : Env) (comm : Community) (id : String) (single : Bool) :
    List PlatformConfig → List PostRec →
    Nat × List PlatformResult × List PostRec × List PostRec
  | [], corpus => (0, [], corpus, [])
  | cfg :: rest, corpus =>
    if !cfg.isActive then runConfigsGo env comm id single rest corpus
    else if cfg.platform ≠ "reddit" then runConfigsGo env comm id single rest corpus
    else
      match stageFetch env comm id single cfg with
      | .error e =>
        let o := runConfigsGo env comm id single rest corpus
        (o.1, failEntry cfg.platform (fetchMsg e) :: o.2.1, o.2.2.1, o.2.2.2)
      | .ok items =>
        let newOnly0 := filterNewContent corpus items cfg.platform
        let newOnly := if single then newOnly0.take 1 else newOnly0
        let c := createPostsFromScrapedContent env comm cfg.platform newOnly corpus 0
        let entry : PlatformResult :=
          { platform := cfg.platform, postsCreated := c.postsCreated
            skippedExisting := c.skippedExisting
            skippedLowQuality := c.skippedLowQuality
            success := true, errMsg := none }
        let o := runConfigsGo env comm id single rest c.corpus
        (c.postsCreated + o.1, entry :: o.2.1, o.2.2.1, c.createdRecords ++ o.2.2.2)

/-- Shared body of `scrapeCommunity` / `scrapeSinglePostPerPlatform`:
look the community up, require platform users, run the config loop, then
apply `lastScrapedAt = now` and `$inc postCount` once. -/
def runCommunity (env : Env) (corpus : List PostRec) (id : String)
    (single : Bool) : Except String RunOut :=
  match env.lookup id with
  | none => .error "Community not found"
  | some comm =>
    if env.users = [] then .error "No platform users found for post assignment"
    else
      let o := runConfigsGo env comm id single comm.scrapingPlatforms corpus
      .ok
        { communityId := id
          communityName := comm.name
          totalPostsCreated := o.1
          platformResults := o.2.1
          community :=
            { comm with lastScrapedAt := some env.now, postCount := comm.postCount + o.1 }
          corpus := o.2.2.1
          createdRecords := o.2.2.2 }

/-- `ScraperManager.scrapeCommunity` (bulk mode). -/
def scrapeCommunity (env : Env) (corpus : List PostRec) (id : String) :
    Except String RunOut :=
  runCommunity env corpus id false

/-- `ScraperManager.scrapeSinglePostPerPlatform` (single-post mode). -/
def scrapeSinglePostPerPlatform (env : Env) (corpus : List PostRec) (id : String) :
    Except String RunOut :=
  runCommunity env corpus id true

/-- The per-config loop of `scrapeAuthenticContent`: no watermark is
passed to the fetch (`minCreatedUtc` absent), cap `postsPerPlatform * 3`,
validation pipeline before creation. -/
def authConfigsGo (env : Env) (comm : Community) (id : String) (ppp : Nat) :
    List PlatformConfig → List PostRec →
    Nat × List PlatformResult × List PostRec × List PostRec
  | [], corpus => (0, [], corpus, [])
  | cfg :: rest, corpus =>
    if !cfg.isActive then authConfigsGo env comm id ppp rest corpus
    else if cfg.platform ≠ "reddit" then authConfigsGo env comm id ppp rest corpus
    else
      match scrapeContent env.isImg env.rndFill (env.trace id cfg.sourceUrl)
          { sourceUrl := cfg.sourceUrl, keywords := cfg.keywords
            maxPosts := ppp * 3, excludeStickied := true, minCreatedUtc := none } with
      | .error e =>
        let o := authConfigsGo env comm id ppp rest corpus
        (o.1, failEntry cfg.platform (fetchMsg e) :: o.2.1, o.2.2.1, o.2.2.2)
      | .ok items =>
        let authentic := validateAuthenticContent env corpus comm ppp items
        let c := createPostsFromAuthenticContent env comm cfg.platform authentic corpus 0
        let entry : PlatformResult :=
          { platform := cfg.platform, postsCreated := c.postsCreated
            skippedExisting := c.skippedExisting
            skippedLowQuality := c.skippedLowQuality
            success := true, errMsg := none }
        let o := authConfigsGo env comm id ppp rest c.corpus
        (c.postsCreated + o.1, entry :: o.2.1, o.2.2.1, c.createdRecords ++ o.2.2.2)

/-- `ScraperManager.scrapeAuthenticContent(communityId, postsPerPlatform)`. -/
def scrapeAuthenticContent (env : Env) (corpus : List PostRec) (id : String)
    (ppp : Nat) : Except String RunOut :=
  match env.lookup id with
  | none => .error "Community not found"
  | some comm =>
    if env.users = [] then .error "No platform users found for post assignment"
    else
      let o := authConfigsGo env comm id ppp comm.scrapingPlatforms corpus
      .ok
        { communityId := id
          communityName := comm.name
          totalPostsCreated := o.1
          platformResults := o.2.1
          community :=
            { comm with lastScrapedAt := some env.now, postCount := comm.postCount + o.1 }
          corpus := o.2.2.1
          createdRecords := o.2.2.2 }

/-! ## ScraperManager sweep entrypoints -/

/-- The aggregate `RunResult` of a sweep. -/
structure SweepOut where
  totalCommunities : Nat
  successfulScrapes : Nat
  failedScrapes : Nat
  totalPostsCreated : Nat
  errors : List (String × String)
deriving DecidableEq

/-- The `for (const community of activeCommunities)` loop shared by both
sweep entrypoints: each community's exception is caught and accumulated. -/
def sweepGo (env : Env) (single : Bool) :
    List Community → List PostRec → SweepOut × List PostRec
  | [], corpus =>
    ({ totalCommunities := 0, successfulScrapes := 0, failedScrapes := 0
       totalPostsCreated := 0, errors := [] }, corpus)
  | c :: rest, corpus =>
    match runCommunity env corpus c.id single with
    | .ok r =>
      let o := sweepGo env single rest r.corpus
      ({ o.1 with
          totalCommunities := o.1.totalCommunities + 1
          successfulScrapes := o.1.successfulScrapes + 1
          totalPostsCreated := r.totalPostsCreated + o.1.totalPostsCreated }, o.2)
    | .error e =>
      let o := sweepGo env single rest corpus
      ({ o.1 with
          totalCommunities := o.1.totalCommunities + 1
          failedScrapes := o.1.failedScrapes + 1
          errors := (c.name, e) :: o.1.errors }, o.2)

/-- `ScraperManager.scrapeAllCommunities`: `findRes` is the outcome of the
`Community.find` query over active communities; its failure propagates
(the outer catch rethrows), per-community failures do not. -/
def scrapeAllCommunities (env : Env) (corpus : List PostRec)
    (findRes : Except String (List Community)) : Except String SweepOut :=
  match findRes with
  | .error e => .error e
  | .ok cs => .ok (sweepGo env false cs corpus).1

/-- `ScraperManager.scrapeSinglePostFromAllCommunities` (identical sweep,
single-post mode per community). -/
def scrapeSinglePostFromAllCommunities (env : Env) (corpus : List PostRec)
    (findRes : Except String (List Community)) : Except String SweepOut :=
  match findRes with
  | .error e => .error e
  | .ok cs => .ok (sweepGo env true cs corpus).1

/-! ## Shared helper lemmas -/

/-- The map/filter/map pattern of `filterNewContent` is a plain filter. -/
lemma map_filter_map_eq_filter (items : List Item) (f : Item → Bool) :
    (((items.map (fun c => (c, f c))).filter (fun r => r.2)).map (fun r => r.1)) =
      items.filter f := by
  induction items with
  | nil => rfl
  | cons c rest ih =>
    by_cases h : f c <;> simp [List.filter_cons, h, ih]

/-- `filterNewContent` as a filter over its input. -/
lemma filterNewContent_eq_filter (corpus : List PostRec) (items : List Item)
    (platform : String) :
    filterNewContent corpus items platform =
      items.filter (fun c =>
        !(corpus.any (postMatches platform c)) && !(c.stickied || c.pinned)) := by
  unfold filterNewContent
  exact map_filter_map_eq_filter items _

/-- Whatever `filterNewContent` keeps came from its input. -/
lemma filterNewContent_subset (corpus : List PostRec) (items : List Item)
    (platform : String) : filterNewContent corpus items platform ⊆ items := by
  rw [filterNewContent_eq_filter]
  exact List.filter_subset' _

/-! ## C10 -/

/-- C10: `enhanceTitle` is total and never returns the empty string; an
empty original title yields the constant `"Discussion Post"`, and a title
whose prefix-stripping leaves nothing falls back to the unmodified
original title. -/
theorem c10_title_fallback :
    enhanceTitle "" = "Discussion Post" ∧
    (∀ t : String, enhanceTitle t ≠ "") ∧
    (∀ t : String, t ≠ "" →
      jsTrimL (stripBracketTag (stripRedditTag t.toList)) = [] →
      enhanceTitle t = t) := by
  refine ⟨by decide, ?_, ?_⟩
  · intro t
    by_cases h : t = ""
    · simp [enhanceTitle, h]
    · simp only [enhanceTitle, if_neg h]
      by_cases h2 : jsTrimL (stripBracketTag (stripRedditTag t.toList)) = []
      · rw [if_pos h2]; exact h
      · rw [if_neg h2]
        intro hc
        exact h2 (by simpa using congrArg String.data hc)
  · intro t h h2
    simp only [enhanceTitle, if_neg h]
    rw [if_pos h2]

/-- Witness for C10 at the concrete title `"PSA:"`, whose stripped form is
empty. -/
theorem c10_title_fallback_witness : enhanceTitle "PSA:" = "PSA:" :=
  c10_title_fallback.2.2 "PSA:" (by decide) (by decide)

/-! ## C2 -/

/-- De Morgan over a list: not-any of a disjunction is the conjunction of
the two not-alls. -/
lemma not_any_or_eq (l : List PostRec) (f g : PostRec → Bool) :
    (!(l.any fun p => f p || g p)) =
      ((l.all fun p => !f p) && (l.all fun p => !g p)) := by
  induction l with
  | nil => rfl
  | cons a t ih =>
    simp only [List.any_cons, List.all_cons, Bool.not_or, ih]
    cases f a <;> cases g a <;>
      cases ht : (t.all fun p => !f p) <;> cases hg : (t.all fun p => !g p) <;> rfl

/-- The item-level keep flag of `filterNewContent` agrees with the
specification's newness predicate. -/
lemma keep_eq_isNewSpec (corpus : List PostRec) (platform : String) (c : Item) :
    (!(corpus.any (postMatches platform c)) && !(c.stickied || c.pinned)) =
      isNewSpec corpus platform c := by
  unfold postMatches isNewSpec
  rw [not_any_or_eq]
  simp [Bool.not_or, ne_eq, decide_not, Bool.and_assoc]

/-- C2: `filterNewContent` returns exactly the input items for which no
persisted record matches `(platform, originalId)`, no persisted record
matches the item's source URL, and the item is not stickied/pinned — as a
filter of the input list, hence in input order. -/
theorem c2_filter_new_content (corpus : List PostRec) (items : List Item)
    (platform : String) :
    filterNewContent corpus items platform =
      items.filter (isNewSpec corpus platform) := by
  rw [filterNewContent_eq_filter]
  exact List.filter_congr (fun c _ => keep_eq_isNewSpec corpus platform c)

/-! ## C8 -/

/-- C8: comment fetch contract — a 429 response is handled by sleeping and
retrying via a recursive call (never surfacing), any other failure yields
the empty list, and every returned comment has a non-empty body different
from `"[deleted]"`. -/
theorem c8_comment_fetch_contract :
    (∀ rest limit, scrapePostComments limit (CResp.rl429 :: rest) =
      scrapePostComments limit rest) ∧
    (∀ rest limit, scrapePostComments limit (CResp.httpErr :: rest) = []) ∧
    (∀ trace limit c, c ∈ scrapePostComments limit trace →
      c.content ≠ "" ∧ c.content ≠ "[deleted]") := by
  refine ⟨fun _ _ => rfl, fun _ _ => rfl, ?_⟩
  intro trace
  induction trace with
  | nil => intro limit c h; simp [scrapePostComments] at h
  | cons hd rest ih =>
    intro limit c h
    cases hd with
    | rl429 => exact ih limit c h
    | httpErr => simp [scrapePostComments] at h
    | ok payload =>
      cases payload with
      | none => simp [scrapePostComments] at h
      | some children =>
        simp only [scrapePostComments] at h
        have h' := List.mem_of_mem_take h
        rw [List.mem_filterMap] at h'
        obtain ⟨c?, _, hc⟩ := h'
        cases c? with
        | none => simp at hc
        | some rc =>
          simp only at hc
          by_cases hb : (rc.body ≠ "" && rc.body ≠ "[deleted]") = true
          · rw [if_pos hb] at hc
            obtain ⟨hb1, hb2⟩ := by simpa using hb
            cases hc
            exact ⟨hb1, hb2⟩
          · rw [if_neg hb] at hc
            cases hc

/-- Witness for C8 on a concrete one-page comment trace. -/
theorem c8_comment_fetch_contract_witness :
    (transformRedditComment ⟨"x1", "hi there", "au", 4, 2, "p0"⟩).content ≠ "" ∧
    (transformRedditComment ⟨"x1", "hi there", "au", 4, 2, "p0"⟩).content ≠ "[deleted]" :=
  c8_comment_fetch_contract.2.2
    [CResp.ok (some [some ⟨"x1", "hi there", "au", 4, 2, "p0"⟩,
                     some ⟨"x2", "[deleted]", "au", 5, 0, "p0"⟩, none])] 10
    (transformRedditComment ⟨"x1", "hi there", "au", 4, 2, "p0"⟩) (by decide)

/-! ## C5 -/

/-- A minimal raw post builder for concrete scenarios. -/
def sampleRaw (i t selftext : String) (created : Nat) : RawPost :=
  { id := i, title := t, selftext := selftext, author := "au"
    created_utc := created, ups := 3, num_crossposts := 0, score := 3
    ratioQ := 1, stickied := false, permalink := "/r/business/comments/" ++ i
    subreddit := "business", link_flair_text := none, thumbnail := none
    previewSrc := none, linkUrl := none, is_video := false
    videoFallback := none, is_gallery := false, galleryUrls := [] }

/-- The expected prompt-synthesized body for a raw post, per the claim. -/
def promptSynthesis (p : RawPost) : String :=
  p.title ++ "\n\n" ++ ((contextualPhrase (jsToLower p.subreddit)).getD defaultPhrase)

/-- A raw post with empty selftext but a long non-blank title. -/
def rawC5 : RawPost :=
  sampleRaw "c5" "This discussion title is certainly longer than fifty characters total" "" 7

/-- C5 counterexample: for an item with empty selftext and a (long)
non-blank title, the transformer outputs the title itself as the content,
not the title followed by the channel prompt sentence — the code passes
`selftext || title` to `enhanceContent`, so the prompt synthesis never
runs when the title is non-blank. -/
theorem c5_counterexample :
    rawC5.selftext = "" ∧
    (transformRedditPost (fun _ => false) 0 rawC5).content = rawC5.title ∧
    rawC5.title ≠ promptSynthesis rawC5 := by
  refine ⟨rfl, by decide, by decide⟩

/-- C5 (amended): the prompt-sentence synthesis happens exactly when the
effective body — the selftext, or the title when the selftext is empty —
is blank after trimming; the output is then the title followed by the
prompt sentence looked up by lower-cased subreddit (default sentence when
the channel has no entry). -/
theorem c5_empty_body_synthesis (isImg : String → Bool) (r : Nat) (p : RawPost)
    (h : jsTrim (jsOrS p.selftext p.title) = "") :
    (transformRedditPost isImg r p).content = promptSynthesis p := by
  show enhanceContent r (jsOrS p.selftext p.title) p.title p.subreddit = _
  rw [enhanceContent, if_pos h]
  rfl

/-- Witness for C5 at a raw post whose selftext is empty and whose title
is whitespace-only. -/
theorem c5_empty_body_synthesis_witness :
    (transformRedditPost (fun _ => false) 0 (sampleRaw "w5" " " "" 7)).content =
      promptSynthesis (sampleRaw "w5" " " "" 7) :=
  c5_empty_body_synthesis (fun _ => false) 0 (sampleRaw "w5" " " "" 7) (by decide)

/-! ## C4 -/

/-- First listing page: one item, with a next cursor. -/
def pageA : PageResp := .ok [some (sampleRaw "a" "Title A" "" 100)] (some "cur1")

/-- Final listing page: one item, no next cursor. -/
def pageB : PageResp := .ok [some (sampleRaw "b" "Title B" "" 90)] none

/-- C4 counterexample: with a 429 on page 2 of a two-page listing fetch
(limit 2), the call returns only the item of the retried page — the item
accumulated from page 1 before the 429 is discarded by the retry, so the
full requested set is not returned. -/
theorem c4_counterexample :
    (fetchRedditPosts (fun _ => false) (fun _ => 0) true none 2
        [pageA, PageResp.rl429, pageB] none []).toOption =
      some ([transformRedditPost (fun _ => false) 0 (sampleRaw "b" "Title B" "" 90)], none) ∧
    transformRedditPost (fun _ => false) 0 (sampleRaw "a" "Title A" "" 100) ≠
      transformRedditPost (fun _ => false) 0 (sampleRaw "b" "Title B" "" 90) :=
  ⟨by decide, by decide⟩

/-- C4 (amended): on a 429 the listing fetch waits the fixed backoff and
retries with the same cursor, and neither a 429 nor the retry surfaces an
error (an error means a non-429 HTTP failure occurred); but the retry
restarts from an empty accumulator, so items gathered before the 429 are
dropped from the result. -/
theorem c4_rate_limit_retry (isImg : String → Bool) (rnd : Nat → Nat)
    (excl : Bool) (minC : Option Nat) (limit : Nat) :
    (∀ rest cursor acc, acc.length < limit →
      fetchRedditPosts isImg rnd excl minC limit (PageResp.rl429 :: rest) cursor acc =
        fetchRedditPosts isImg rnd excl minC limit rest cursor []) ∧
    (∀ trace cursor acc,
      fetchRedditPosts isImg rnd excl minC limit trace cursor acc =
        .error FetchErr.http →
      PageResp.httpErr ∈ trace) := by
  constructor
  · intro rest cursor acc h
    conv_lhs => rw [fetchRedditPosts]
    rw [if_neg (by omega)]
  · intro trace
    induction trace with
    | nil =>
      intro cursor acc h
      rw [fetchRedditPosts] at h
      split at h <;> simp_all
    | cons hd rest ih =>
      intro cursor acc h
      cases hd with
      | rl429 =>
        rw [fetchRedditPosts] at h
        split at h
        · simp at h
        · exact List.mem_cons_of_mem _ (ih cursor [] h)
      | httpErr => exact List.mem_cons_self _ _
      | ok children aft =>
        rw [fetchRedditPosts] at h
        split at h
        · simp at h
        · split at h
          · simp at h
          · split at h
            · simp at h
            · simp only [] at h
              split at h
              · simp at h
              · exact List.mem_cons_of_mem _ (ih _ _ h)

/-- Witness for C4: the retry equation at a concrete 429 trace, and the
no-error contrapositive at a concrete failing trace. -/
theorem c4_rate_limit_retry_witness :
    fetchRedditPosts (fun _ => false) (fun _ => 0) true none 2 [PageResp.rl429, pageB] none [] =
      fetchRedditPosts (fun _ => false) (fun _ => 0) true none 2 [pageB] none [] ∧
    PageResp.httpErr ∈ [PageResp.httpErr] :=
  ⟨(c4_rate_limit_retry (fun _ => false) (fun _ => 0) true none 2).1 [pageB] none [] (by decide),
   (c4_rate_limit_retry (fun _ => false) (fun _ => 0) true none 2).2 [PageResp.httpErr] none [] rfl⟩

/-! ## C3 -/

/-- Every record inserted by the bulk create loop passed the bulk quality
gate. -/
lemma createScraped_quality (env : Env) (comm : Community) (platform : String) :
    ∀ items corpus i,
      ∀ d ∈ (createPostsFromScrapedContent env comm platform items corpus i).createdRecords,
        bulkThreshold comm ≤ d.qualityScore := by
  intro items
  induction items with
  | nil => intro corpus i d hd; simp [createPostsFromScrapedContent] at hd
  | cons c rest ih =>
    intro corpus i d hd
    rw [createPostsFromScrapedContent] at hd
    split at hd
    · exact ih _ _ d hd
    · simp only [] at hd
      split at hd
      · exact ih _ _ d hd
      · rcases List.mem_cons.mp hd with rfl | hd'
        · simpa [mkScrapedRec] using le_of_not_lt (by assumption)
        · exact ih _ _ d hd'

/-- The bulk create loop accounts for every input item: created, skipped
as existing, or skipped as low quality. -/
lemma createScraped_conservation (env : Env) (comm : Community) (platform : String) :
    ∀ items corpus i,
      (createPostsFromScrapedContent env comm platform items corpus i).postsCreated +
      (createPostsFromScrapedContent env comm platform items corpus i).skippedExisting +
      (createPostsFromScrapedContent env comm platform items corpus i).skippedLowQuality
        = items.length := by
  intro items
  induction items with
  | nil => intro corpus i; simp [createPostsFromScrapedContent]
  | cons c rest ih =>
    intro corpus i
    rw [createPostsFromScrapedContent]
    split
    · have := ih corpus (i + 1); simp only [List.length_cons]; omega
    · simp only []
      split
      · have := ih corpus (i + 1); simp only [List.length_cons]; omega
      · have := ih (corpus ++ [mkScrapedRec env comm platform i (env.qs c) c]) (i + 1)
        simp only [List.length_cons]; omega

/-- Every survivor of the authentic validation loop passed the authentic
quality gate. -/
lemma validateAuthGo_quality (env : Env) (corpus : List PostRec)
    (comm : Community) (mp : Nat) :
    ∀ items cnt, ∀ a ∈ validateAuthGo env corpus comm mp items cnt,
      authThreshold comm ≤ a.qualityScore := by
  intro items
  induction items with
  | nil => intro cnt a ha; simp [validateAuthGo] at ha
  | cons c rest ih =>
    intro cnt a ha
    rw [validateAuthGo] at ha
    split at ha
    · exact ih _ a ha
    · simp only [] at ha
      split at ha
      · exact ih _ a ha
      · split at ha
        · exact ih _ a ha
        · split at ha
          · rcases List.mem_singleton.mp ha with rfl
            exact le_of_not_lt (by assumption)
          · rcases List.mem_cons.mp ha with rfl | ha'
            · exact le_of_not_lt (by assumption)
            · exact ih _ a ha'

/-- The records inserted by the authentic create loop carry the quality
scores of its input survivors. -/
lemma createAuth_quality (env : Env) (comm : Community) (platform : String) :
    ∀ auth corpus i, (∀ a ∈ auth, authThreshold comm ≤ a.qualityScore) →
      ∀ d ∈ (createPostsFromAuthenticContent env comm platform auth corpus i).createdRecords,
        authThreshold comm ≤ d.qualityScore := by
  intro auth
  induction auth with
  | nil => intro corpus i _ d hd; simp [createPostsFromAuthenticContent] at hd
  | cons a rest ih =>
    intro corpus i hq d hd
    rw [createPostsFromAuthenticContent] at hd
    split at hd
    · exact ih _ _ (fun x hx => hq x (List.mem_cons_of_mem _ hx)) d hd
    · rcases List.mem_cons.mp hd with rfl | hd'
      · simpa [mkAuthRec] using hq a (List.mem_cons_self _ _)
      · exact ih _ _ (fun x hx => hq x (List.mem_cons_of_mem _ hx)) d hd'

/-- The authentic create loop never increments `skippedLowQuality`. -/
lemma createAuth_no_lowquality (env : Env) (comm : Community) (platform : String) :
    ∀ auth corpus i,
      (createPostsFromAuthenticContent env comm platform auth corpus i).skippedLowQuality = 0 := by
  intro auth
  induction auth with
  | nil => intro corpus i; simp [createPostsFromAuthenticContent]
  | cons a rest ih =>
    intro corpus i
    rw [createPostsFromAuthenticContent]
    split
    · simpa using ih _ _
    · simpa using ih _ _

/-- C3 (amended): every record persisted by the bulk/single-post create
path has quality score at least the resolved bulk threshold
(`qualityThreshold || 0.5`), every record persisted by the authentic path
has quality score at least the resolved authentic threshold
(`qualityThreshold || 0.6`), and in bulk/single-post mode gated items are
counted (`created + skippedExisting + skippedLowQuality = input length`);
but the authentic path drops low-quality items during validation without
counting them — its `skippedLowQuality` counter is always 0. -/
theorem c3_quality_gate (env : Env) (comm : Community) (platform : String) :
    (∀ items corpus i,
      ∀ d ∈ (createPostsFromScrapedContent env comm platform items corpus i).createdRecords,
        bulkThreshold comm ≤ d.qualityScore) ∧
    (∀ items cv cc mp i,
      ∀ d ∈ (createPostsFromAuthenticContent env comm platform
          (validateAuthenticContent env cv comm mp items) cc i).createdRecords,
        authThreshold comm ≤ d.qualityScore) ∧
    (∀ items corpus i,
      (createPostsFromScrapedContent env comm platform items corpus i).postsCreated +
      (createPostsFromScrapedContent env comm platform items corpus i).skippedExisting +
      (createPostsFromScrapedContent env comm platform items corpus i).skippedLowQuality
        = items.length) ∧
    (∀ auth corpus i,
      (createPostsFromAuthenticContent env comm platform auth corpus i).skippedLowQuality = 0) :=
  ⟨createScraped_quality env comm platform,
   fun items cv cc mp i =>
     createAuth_quality env comm platform _ cc i
       (fun a ha => validateAuthGo_quality env cv comm mp items 0 a ha),
   createScraped_conservation env comm platform,
   createAuth_no_lowquality env comm platform⟩

/-- Community used by the C3 counterexample (no explicit threshold, so the
authentic default 0.6 applies). -/
def commC3 : Community :=
  { id := "c3", name := "Biz3", isActive := true
    scrapingPlatforms := [⟨"reddit", "https://www.reddit.com/r/business", [], true⟩]
    lastScrapedAt := none, postCount := 0, scrapingConfig := none }

/-- Environment of the C3 counterexample: one fetched item, authenticity
accepted, quality score 0 (below every default threshold). -/
def envC3 : Env :=
  { lookup := fun i => if i = "c3" then some commC3 else none
    trace := fun _ _ => [PageResp.ok [some (sampleRaw "lowq" "Low quality thing" "" 50)] none]
    users := ["u1"]
    qs := fun _ => 0
    validator := fun _ => ⟨true, "", 1⟩
    proc := fun it => ⟨it.title, it.content, it.tags⟩
    procA := fun it => ⟨it.title, it.content, it.tags, "general", []⟩
    isImg := fun _ => false
    rndFill := fun _ => 0
    rndUser := fun _ => 0
    rndLike := fun _ => 0
    now := 1000 }

/-- C3 counterexample: in an authentic-mode run one fetched item reaches
the quality gate scoring 0 (below the 0.6 threshold) and is dropped, yet
the reported `skippedLowQuality` stays 0 — below-threshold items are not
counted as skipped-low-quality on this path. -/
theorem c3_counterexample :
    envC3.qs (transformRedditPost envC3.isImg 0 (sampleRaw "lowq" "Low quality thing" "" 50))
        < authThreshold commC3 ∧
    (scrapeAuthenticContent envC3 [] "c3" 2).toOption.map
        (fun r => (r.platformResults.map
            (fun e => (e.success, e.postsCreated, e.skippedLowQuality)),
          r.createdRecords.length)) =
      some ([(true, 0, 0)], 0) :=
  ⟨by decide, by decide⟩

/-- Community used by the creating witnesses (watermark 10, no explicit
thresholds). -/
def commW : Community :=
  { id := "cw", name := "BizW", isActive := true
    scrapingPlatforms := [⟨"reddit", "https://www.reddit.com/r/business", [], true⟩]
    lastScrapedAt := some 10, postCount := 7, scrapingConfig := none }

/-- Environment of the creating witnesses: one fresh item with upstream
timestamp 20, quality score 1. -/
def envW : Env :=
  { lookup := fun i => if i = "cw" then some commW else none
    trace := fun _ _ => [PageResp.ok [some (sampleRaw "w" "Nice fresh post" "" 20)] none]
    users := ["u1"]
    qs := fun _ => 1
    validator := fun _ => ⟨true, "", 1⟩
    proc := fun it => ⟨it.title, it.content, it.tags⟩
    procA := fun it => ⟨it.title, it.content, it.tags, "general", []⟩
    isImg := fun _ => false
    rndFill := fun _ => 0
    rndUser := fun _ => 0
    rndLike := fun _ => 0
    now := 1000 }

/-- The transformed witness item. -/
def itemW : Item := transformRedditPost (fun _ => false) 0 (sampleRaw "w" "Nice fresh post" "" 20)

/-- Witness for C3: a concretely created record satisfies the bulk gate. -/
theorem c3_quality_gate_witness :
    bulkThreshold commW ≤ (mkScrapedRec envW commW "reddit" 0 (envW.qs itemW) itemW).qualityScore :=
  (c3_quality_gate envW commW "reddit").1 [itemW] [] 0 _ (by decide)

/-! ## C9 -/

/-- The page loop never grows the accumulator past the limit. -/
lemma processChildren_length (isImg : String → Bool) (rnd : Nat → Nat)
    (excl : Bool) (minC : Option Nat) (limit : Nat) :
    ∀ children acc reached, acc.length < limit →
      (processChildren isImg rnd excl minC limit children acc reached).1.length ≤ limit := by
  intro children
  induction children with
  | nil => intro acc reached h; simpa [processChildren] using le_of_lt h
  | cons hd rest ih =>
    intro acc reached h
    cases hd with
    | none => rw [processChildren]; exact ih acc reached h
    | some d =>
      rw [processChildren]
      split
      · exact ih acc reached h
      · split
        · exact ih acc true h
        · simp only []
          split
          · simpa using h
          · exact ih _ reached (by simp_all)

/-- A successful listing fetch returns at most `limit` items. -/
lemma fetch_length (isImg : String → Bool) (rnd : Nat → Nat) (excl : Bool)
    (minC : Option Nat) (limit : Nat) :
    ∀ trace cursor acc ps a2, acc.length ≤ limit →
      fetchRedditPosts isImg rnd excl minC limit trace cursor acc = .ok (ps, a2) →
      ps.length ≤ limit := by
  intro trace
  induction trace with
  | nil =>
    intro cursor acc ps a2 hle h
    rw [fetchRedditPosts] at h
    split at h
    · cases h; exact hle
    · simp at h
  | cons hd rest ih =>
    intro cursor acc ps a2 hle h
    cases hd with
    | rl429 =>
      rw [fetchRedditPosts] at h
      split at h
      · cases h; exact hle
      · exact ih cursor [] ps a2 (by simp) h
    | httpErr =>
      rw [fetchRedditPosts] at h
      split at h
      · cases h; exact hle
      · simp at h
    | ok children aft =>
      rw [fetchRedditPosts] at h
      split at h
      · cases h; exact hle
      · rename_i hlt
        have hpc := processChildren_length isImg rnd excl minC limit children acc false
          (by omega)
        split at h
        · cases h; exact hle
        · simp only [] at h
          split at h
          · cases h; exact hpc
          · split at h
            · cases h; exact hpc
            · exact ih _ _ ps a2 hpc h

/-- C9: with a non-empty keyword list `scrapeContent` returns exactly the
fetched items matching some keyword case-insensitively (in fetch order);
with an empty keyword list it returns the fetched items unfiltered — the
final `slice(0, maxPosts)` drops nothing because the fetch already
respects the cap. -/
theorem c9_keyword_filter (isImg : String → Bool) (rnd : Nat → Nat)
    (trace : List PageResp) (a : ScrapeArgs) (sub : String)
    (posts : List Item) (cur : Option String)
    (hs : extractSubreddit a.sourceUrl = some sub)
    (hf : fetchRedditPosts isImg rnd a.excludeStickied a.minCreatedUtc a.maxPosts
        trace none [] = .ok (posts, cur)) :
    scrapeContent isImg rnd trace a =
      .ok (if a.keywords = [] then posts
           else posts.filter (fun p => matchesKeywords p a.keywords)) ∧
    ∀ p, p ∈ posts.filter (fun p => matchesKeywords p a.keywords) ↔
      p ∈ posts ∧ matchesKeywords p a.keywords = true := by
  have hlen : posts.length ≤ a.maxPosts :=
    fetch_length isImg rnd a.excludeStickied a.minCreatedUtc a.maxPosts
      trace none [] posts cur (by simp) hf
  constructor
  · unfold scrapeContent
    rw [hs, hf]
    by_cases hk : a.keywords = []
    · simp [hk, List.take_of_length_le hlen]
    · simp only [hk, if_neg, ne_eq, not_false_iff, if_pos]
      rw [List.take_of_length_le (le_trans (List.length_filter_le _ _) hlen)]
  · intro p
    simp [List.mem_filter]

/-- Raw posts for the C9 witness. -/
def rawK1 : RawPost := sampleRaw "k1" "Backup your data now people" "" 30

/-- Second raw post for the C9 witness (does not match the keyword). -/
def rawK2 : RawPost := sampleRaw "k2" "Cats are nice" "" 29

/-- One-page trace for the C9 witness. -/
def c9trace : List PageResp := [.ok [some rawK1, some rawK2] none]

/-- Arguments for the C9 witness. -/
def c9args : ScrapeArgs :=
  { sourceUrl := "https://www.reddit.com/r/business", keywords := ["backup"]
    maxPosts := 5, excludeStickied := true, minCreatedUtc := none }

/-- The transformed fetch output for the C9 witness. -/
def c9posts : List Item :=
  [transformRedditPost (fun _ => false) 0 rawK1,
   transformRedditPost (fun _ => false) 1 rawK2]

/-- Witness for C9 on a concrete two-item page with keyword `"backup"`. -/
theorem c9_keyword_filter_witness :
    scrapeContent (fun _ => false) (fun n => n) c9trace c9args =
      .ok (if c9args.keywords = [] then c9posts
           else c9posts.filter (fun p => matchesKeywords p c9args.keywords)) :=
  (c9_keyword_filter (fun _ => false) (fun n => n) c9trace c9args "business"
    c9posts none (by decide) rfl).1

/-! ## C6 -/

/-- The source configs actually processed by the loop: active ones whose
platform is the (only) registered scraper platform. -/
def activeRedditOf (cfgs : List PlatformConfig) : List PlatformConfig :=
  cfgs.filter (fun c => c.isActive && c.platform = "reddit")

/-- Placeholder config for safe indexing. -/
def dfltCfg : PlatformConfig := ⟨"", "", [], false⟩

/-- Placeholder result entry for safe indexing. -/
def dfltRes : PlatformResult := ⟨"", 0, 0, 0, false, none⟩

/-- Placeholder community for safe indexing. -/
def dfltComm : Community := ⟨"", "", false, [], none, 0, none⟩

/-- Placeholder run result for safe indexing. -/
def dfltRun : RunOut := ⟨"", "", 0, [], dfltComm, [], []⟩

/-- Placeholder post record for safe indexing. -/
def dfltPost : PostRec :=
  ⟨"", "", "", "", "", "", "", 0, 0, 0, 0, 0, none, "", 0, [], "", false, "", none, [], ""⟩

/-- What the `platformResults` entry of one source config must look like:
a failure entry carrying the error message when its fetch stage threw,
and a success entry for its platform otherwise. -/
def entryShape (env : Env) (comm : Community) (id : String) (single : Bool)
    (cfg : PlatformConfig) (e : PlatformResult) : Prop :=
  match stageFetch env comm id single cfg with
  | .error err => e = failEntry cfg.platform (fetchMsg err)
  | .ok _ => e.success = true ∧ e.platform = cfg.platform ∧ e.errMsg = none

/-- The config loop produces one result entry per active reddit config, in
order, failure entries exactly for the configs whose fetch stage threw,
and a total equal to the sum of the per-entry creation counts. -/
lemma runConfigsGo_entries (env : Env) (comm : Community) (id : String) (single : Bool) :
    ∀ cfgs corpus,
      (runConfigsGo env comm id single cfgs corpus).2.1.length =
        (activeRedditOf cfgs).length ∧
      (∀ j, j < (activeRedditOf cfgs).length →
        entryShape env comm id single ((activeRedditOf cfgs).getD j dfltCfg)
          ((runConfigsGo env comm id single cfgs corpus).2.1.getD j dfltRes)) ∧
      (runConfigsGo env comm id single cfgs corpus).1 =
        ((runConfigsGo env comm id single cfgs corpus).2.1.map
          (fun e => e.postsCreated)).sum := by
  intro cfgs
  induction cfgs with
  | nil => intro corpus; refine ⟨rfl, ?_, rfl⟩; intro j hj; simp [activeRedditOf] at hj
  | cons cfg rest ih =>
    intro corpus
    by_cases hact : cfg.isActive
    · by_cases hred : cfg.platform = "reddit"
      · have hfilter : activeRedditOf (cfg :: rest) = cfg :: activeRedditOf rest := by
          simp [activeRedditOf, List.filter_cons, hact, hred]
        rw [runConfigsGo]
        rw [if_neg (by simp [hact]), if_neg (by simp [hred])]
        cases hsf : stageFetch env comm id single cfg with
        | error err =>
          refine ⟨?_, ?_, ?_⟩
          · simpa [hfilter] using (ih corpus).1
          · intro j hj
            rw [hfilter] at hj ⊢
            cases j with
            | zero => simp [entryShape, hsf, List.getD]
            | succ j =>
              simp only [List.getD_cons_succ]
              exact (ih corpus).2.1 j (by simpa using hj)
          · simpa [failEntry] using (ih corpus).2.2
        | ok items =>
          simp only []
          refine ⟨?_, ?_, ?_⟩
          · simpa [hfilter] using
              (ih (createPostsFromScrapedContent env comm cfg.platform
                (if single then (filterNewContent corpus items cfg.platform).take 1
                 else filterNewContent corpus items cfg.platform) corpus 0).corpus).1
          · intro j hj
            rw [hfilter] at hj ⊢
            cases j with
            | zero => simp [entryShape, hsf, List.getD]
            | succ j =>
              simp only [List.getD_cons_succ]
              exact (ih _).2.1 j (by simpa using hj)
          · simp only [List.map_cons, List.sum_cons]
            have := (ih (createPostsFromScrapedContent env comm cfg.platform
                (if single then (filterNewContent corpus items cfg.platform).take 1
                 else filterNewContent corpus items cfg.platform) corpus 0).corpus).2.2
            omega
      · have hfilter : activeRedditOf (cfg :: rest) = activeRedditOf rest := by
          simp [activeRedditOf, List.filter_cons, hred]
        rw [runConfigsGo, if_neg (by simp [hact]), if_pos hred]
        simpa [hfilter] using ih corpus
    · have hfilter : activeRedditOf (cfg :: rest) = activeRedditOf rest := by
        simp [activeRedditOf, List.filter_cons, hact]
      rw [runConfigsGo, if_pos (by simp [hact])]
      simpa [hfilter] using ih corpus

/-- C6: when the community exists and platform users are available, the
community run returns a structured result in which every active reddit
source config has exactly one `platformResults` entry in order — failed
stages yield `success = false` entries with the error message, without
aborting the remaining configs — and, applied once after all configs,
`lastScrapedAt` is set to now and `postCount` is incremented by the total
number of posts created. -/
theorem c6_config_failure_isolation (env : Env) (id : String) (comm : Community)
    (corpus : List PostRec)
    (hc : env.lookup id = some comm) (hu : env.users ≠ []) :
    scrapeCommunity env corpus id =
      .ok ((scrapeCommunity env corpus id).toOption.getD dfltRun) ∧
    ((scrapeCommunity env corpus id).toOption.getD dfltRun).community.lastScrapedAt =
      some env.now ∧
    ((scrapeCommunity env corpus id).toOption.getD dfltRun).community.postCount =
      comm.postCount +
        ((scrapeCommunity env corpus id).toOption.getD dfltRun).totalPostsCreated ∧
    ((scrapeCommunity env corpus id).toOption.getD dfltRun).platformResults.length =
      (activeRedditOf comm.scrapingPlatforms).length ∧
    (∀ j, j < (activeRedditOf comm.scrapingPlatforms).length →
      entryShape env comm id false
        ((activeRedditOf comm.scrapingPlatforms).getD j dfltCfg)
        (((scrapeCommunity env corpus id).toOption.getD dfltRun).platformResults.getD j dfltRes)) ∧
    ((scrapeCommunity env corpus id).toOption.getD dfltRun).totalPostsCreated =
      (((scrapeCommunity env corpus id).toOption.getD dfltRun).platformResults.map
        (fun e => e.postsCreated)).sum := by
  have hrun : scrapeCommunity env corpus id = .ok
      { communityId := id
        communityName := comm.name
        totalPostsCreated := (runConfigsGo env comm id false comm.scrapingPlatforms corpus).1
        platformResults := (runConfigsGo env comm id false comm.scrapingPlatforms corpus).2.1
        community :=
          { comm with
              lastScrapedAt := some env.now
              postCount :=
                comm.postCount + (runConfigsGo env comm id false comm.scrapingPlatforms corpus).1 }
        corpus := (runConfigsGo env comm id false comm.scrapingPlatforms corpus).2.2.1
        createdRecords := (runConfigsGo env comm id false comm.scrapingPlatforms corpus).2.2.2 } := by
    unfold scrapeCommunity runCommunity
    rw [hc]
    simp only []
    rw [if_neg hu]
  rw [hrun]
  simp only [Except.toOption, Option.getD]
  obtain ⟨h1, h2, h3⟩ := runConfigsGo_entries env comm id false comm.scrapingPlatforms corpus
  exact ⟨by trivial, by trivial, by trivial, h1, h2, h3⟩

/-- Community with two active reddit source configs for the C6 witness. -/
def commC6 : Community :=
  { id := "c6", name := "Biz6", isActive := true
    scrapingPlatforms :=
      [⟨"reddit", "https://www.reddit.com/r/alpha", [], true⟩,
       ⟨"reddit", "https://www.reddit.com/r/business", [], true⟩]
    lastScrapedAt := some 10, postCount := 3, scrapingConfig := none }

/-- Environment for the C6 witness: the first config's fetch fails with a
non-429 HTTP error, the second succeeds with one fresh item. -/
def envC6 : Env :=
  { lookup := fun i => if i = "c6" then some commC6 else none
    trace := fun _ src =>
      if src = "https://www.reddit.com/r/alpha" then [PageResp.httpErr]
      else [PageResp.ok [some (sampleRaw "w6" "Nice fresh post" "" 20)] none]
    users := ["u1"]
    qs := fun _ => 1
    validator := fun _ => ⟨true, "", 1⟩
    proc := fun it => ⟨it.title, it.content, it.tags⟩
    procA := fun it => ⟨it.title, it.content, it.tags, "general", []⟩
    isImg := fun _ => false
    rndFill := fun _ => 0
    rndUser := fun _ => 0
    rndLike := fun _ => 0
    now := 1000 }

/-- Witness for C6: with config 1 failing and config 2 succeeding, the run
still returns ok, advances `lastScrapedAt`, and counts the posts of the
surviving config. -/
theorem c6_config_failure_isolation_witness :
    scrapeCommunity envC6 [] "c6" =
      .ok ((scrapeCommunity envC6 [] "c6").toOption.getD dfltRun) ∧
    ((scrapeCommunity envC6 [] "c6").toOption.getD dfltRun).community.lastScrapedAt =
      some envC6.now :=
  ⟨(c6_config_failure_isolation envC6 "c6" commC6 [] rfl (by decide)).1,
   (c6_config_failure_isolation envC6 "c6" commC6 [] rfl (by decide)).2.1⟩

/-! ## C7 -/

/-- The error message a community's run produces in this model, if any:
the refetched community may be gone, or the platform-user pool empty. -/
def runCommunityErr (env : Env) (c : Community) : Option String :=
  match env.lookup c.id with
  | none => some "Community not found"
  | some _ =>
    if env.users = [] then some "No platform users found for post assignment"
    else none

/-- The per-community error list a sweep accumulates. -/
def expectedSweepErrors (env : Env) (cs : List Community) : List (String × String) :=
  cs.filterMap (fun c => (runCommunityErr env c).map (fun e => (c.name, e)))

/-- A community run fails with exactly the message of `runCommunityErr`
and succeeds when there is none. -/
lemma runCommunity_cases (env : Env) (corpus : List PostRec) (c : Community)
    (single : Bool) :
    (∀ e, runCommunityErr env c = some e →
      runCommunity env corpus c.id single = .error e) ∧
    (runCommunityErr env c = none →
      (runCommunity env corpus c.id single).isOk = true) := by
  unfold runCommunityErr runCommunity
  cases h : env.lookup c.id with
  | none =>
    simp only [h]
    exact ⟨fun e he => by cases he; rfl, fun he => by cases he⟩
  | some comm =>
    simp only [h]
    by_cases hu : env.users = []
    · simp only [if_pos hu]
      exact ⟨fun e he => by cases he; rfl, fun he => by cases he⟩
    · simp only [if_neg hu]
      constructor
      · intro e he; cases he
      · intro _; rfl

/-- The sweep loop accumulates per-community outcomes: each failing
community contributes one error entry (in order) and a failure count, no
exception escapes. -/
lemma sweepGo_spec (env : Env) (single : Bool) :
    ∀ cs corpus,
      (sweepGo env single cs corpus).1.totalCommunities = cs.length ∧
      (sweepGo env single cs corpus).1.successfulScrapes +
        (sweepGo env single cs corpus).1.failedScrapes = cs.length ∧
      (sweepGo env single cs corpus).1.errors = expectedSweepErrors env cs ∧
      (sweepGo env single cs corpus).1.failedScrapes =
        (expectedSweepErrors env cs).length := by
  intro cs
  induction cs with
  | nil => intro corpus; exact ⟨rfl, rfl, rfl, rfl⟩
  | cons c rest ih =>
    intro corpus
    rw [sweepGo]
    cases he : runCommunityErr env c with
    | some e =>
      have hrc := (runCommunity_cases env corpus c single).1 e he
      rw [hrc]
      simp only []
      have hexp : expectedSweepErrors env (c :: rest) =
          (c.name, e) :: expectedSweepErrors env rest := by
        simp [expectedSweepErrors, List.filterMap_cons, he]
      obtain ⟨i1, i2, i3, i4⟩ := ih corpus
      refine ⟨?_, ?_, ?_, ?_⟩
      · simp only [List.length_cons]; omega
      · simp only [List.length_cons]; omega
      · rw [hexp, i3]
      · rw [hexp]; simp only [List.length_cons]; omega
    | none =>
      have hok := (runCommunity_cases env corpus c single).2 he
      cases hrc : runCommunity env corpus c.id single with
      | error e2 => rw [hrc] at hok; simp [Except.isOk, Except.toBool] at hok
      | ok r =>
        simp only []
        have hexp : expectedSweepErrors env (c :: rest) =
            expectedSweepErrors env rest := by
          simp [expectedSweepErrors, List.filterMap_cons, he]
        obtain ⟨i1, i2, i3, i4⟩ := ih r.corpus
        refine ⟨?_, ?_, ?_, ?_⟩
        · simp only [List.length_cons]; omega
        · simp only [List.length_cons]; omega
        · rw [hexp, i3]
        · rw [hexp]; omega

/-- C7: both sweep entrypoints propagate only a pre-sweep query failure;
given a community list they always return a structured result whose
counts cover every community and whose error list records exactly the
failing communities, in order — no per-community exception escapes. -/
theorem c7_sweep_entry_contract (env : Env) (corpus : List PostRec)
    (cs : List Community) (e : String) :
    scrapeAllCommunities env corpus (Except.error e) = .error e ∧
    scrapeSinglePostFromAllCommunities env corpus (Except.error e) = .error e ∧
    (∃ out, scrapeAllCommunities env corpus (Except.ok cs) = .ok out ∧
      out.totalCommunities = cs.length ∧
      out.successfulScrapes + out.failedScrapes = cs.length ∧
      out.errors = expectedSweepErrors env cs ∧
      out.failedScrapes = (expectedSweepErrors env cs).length) ∧
    (∃ out, scrapeSinglePostFromAllCommunities env corpus (Except.ok cs) = .ok out ∧
      out.totalCommunities = cs.length ∧
      out.successfulScrapes + out.failedScrapes = cs.length ∧
      out.errors = expectedSweepErrors env cs ∧
      out.failedScrapes = (expectedSweepErrors env cs).length) := by
  obtain ⟨h1, h2, h3, h4⟩ := sweepGo_spec env false cs corpus
  obtain ⟨g1, g2, g3, g4⟩ := sweepGo_spec env true cs corpus
  exact ⟨rfl, rfl,
    ⟨(sweepGo env false cs corpus).1, rfl, h1, h2, h3, h4⟩,
    ⟨(sweepGo env true cs corpus).1, rfl, g1, g2, g3, g4⟩⟩

/-! ## C1 -/

/-- With a non-zero watermark, the page loop only ever accumulates items
strictly newer than the watermark. -/
lemma processChildren_watermark (isImg : String → Bool) (rnd : Nat → Nat)
    (excl : Bool) (limit : Nat) (T : Nat) (hT : T ≠ 0) :
    ∀ children acc reached, (∀ x ∈ acc, T < x.createdUtc) →
      ∀ x ∈ (processChildren isImg rnd excl (some T) limit children acc reached).1,
        T < x.createdUtc := by
  intro children
  induction children with
  | nil => intro acc reached hacc x hx; rw [processChildren] at hx; exact hacc x hx
  | cons hd rest ih =>
    intro acc reached hacc x hx
    cases hd with
    | none => rw [processChildren] at hx; exact ih acc reached hacc x hx
    | some d =>
      rw [processChildren] at hx
      split at hx
      · exact ih _ _ hacc x hx
      · split at hx
        · exact ih _ _ hacc x hx
        · rename_i hold
          have hdT : T < d.created_utc := by
            simp [isOldItem, hT] at hold
            omega
          have hacc' : ∀ y ∈ acc ++ [transformRedditPost isImg (rnd acc.length) d],
              T < y.createdUtc := by
            intro y hy
            rcases List.mem_append.mp hy with hy | hy
            · exact hacc y hy
            · rcases List.mem_singleton.mp hy with rfl
              exact hdT
          simp only [] at hx
          split at hx
          · exact hacc' x hx
          · exact ih _ _ hacc' x hx

/-- With a non-zero watermark, a successful listing fetch returns only
items strictly newer than the watermark. -/
lemma fetch_watermark (isImg : String → Bool) (rnd : Nat → Nat) (excl : Bool)
    (limit : Nat) (T : Nat) (hT : T ≠ 0) :
    ∀ trace cursor acc ps a2, (∀ x ∈ acc, T < x.createdUtc) →
      fetchRedditPosts isImg rnd excl (some T) limit trace cursor acc = .ok (ps, a2) →
      ∀ x ∈ ps, T < x.createdUtc := by
  intro trace
  induction trace with
  | nil =>
    intro cursor acc ps a2 hacc h
    rw [fetchRedditPosts] at h
    split at h
    · cases h; exact hacc
    · simp at h
  | cons hd rest ih =>
    intro cursor acc ps a2 hacc h
    cases hd with
    | rl429 =>
      rw [fetchRedditPosts] at h
      split at h
      · cases h; exact hacc
      · exact ih cursor [] ps a2 (by simp) h
    | httpErr =>
      rw [fetchRedditPosts] at h
      split at h
      · cases h; exact hacc
      · simp at h
    | ok children aft =>
      rw [fetchRedditPosts] at h
      split at h
      · cases h; exact hacc
      · have hpr := processChildren_watermark isImg rnd excl limit T hT children acc false hacc
        split at h
        · cases h; exact hacc
        · simp only [] at h
          split at h
          · cases h; exact hpr
          · split at h
            · cases h; exact hpr
            · exact ih _ _ ps a2 hpr h

/-- With a non-zero watermark in its arguments, `scrapeContent` returns
only items strictly newer than the watermark. -/
lemma scrapeContent_watermark (isImg : String → Bool) (rnd : Nat → Nat)
    (trace : List PageResp) (a : ScrapeArgs) (T : Nat)
    (hT : T ≠ 0) (hm : a.minCreatedUtc = some T) (items : List Item)
    (h : scrapeContent isImg rnd trace a = .ok items) :
    ∀ x ∈ items, T < x.createdUtc := by
  unfold scrapeContent at h
  cases hs : extractSubreddit a.sourceUrl with
  | none => rw [hs] at h; simp at h
  | some sub =>
    rw [hs] at h
    simp only [] at h
    cases hf : fetchRedditPosts isImg rnd a.excludeStickied a.minCreatedUtc a.maxPosts
        trace none [] with
    | error e => rw [hf] at h; simp at h
    | ok pr =>
      obtain ⟨ps, a2⟩ := pr
      rw [hf] at h
      simp only [] at h
      rw [hm] at hf
      have hw := fetch_watermark isImg rnd a.excludeStickied a.maxPosts T hT
        trace none [] ps a2 (by simp) hf
      intro x hx
      cases h
      have hx' := List.mem_of_mem_take hx
      have hxp : x ∈ ps := by
        split at hx'
        · exact List.filter_subset' _ hx'
        · exact hx'
      exact hw x hxp

/-- Every record the bulk create loop inserts carries the upstream
timestamp of one of its input items. -/
lemma createScraped_from_items (env : Env) (comm : Community) (platform : String) :
    ∀ items corpus i,
      ∀ d ∈ (createPostsFromScrapedContent env comm platform items corpus i).createdRecords,
        ∃ c ∈ items, d.originalCreatedUtc = c.createdUtc := by
  intro items
  induction items with
  | nil => intro corpus i d hd; simp [createPostsFromScrapedContent] at hd
  | cons c rest ih =>
    intro corpus i d hd
    rw [createPostsFromScrapedContent] at hd
    split at hd
    · obtain ⟨c', hc', he⟩ := ih _ _ d hd
      exact ⟨c', List.mem_cons_of_mem _ hc', he⟩
    · simp only [] at hd
      split at hd
      · obtain ⟨c', hc', he⟩ := ih _ _ d hd
        exact ⟨c', List.mem_cons_of_mem _ hc', he⟩
      · rcases List.mem_cons.mp hd with rfl | hd'
        · exact ⟨c, List.mem_cons_self _ _, rfl⟩
        · obtain ⟨c', hc', he⟩ := ih _ _ d hd'
          exact ⟨c', List.mem_cons_of_mem _ hc', he⟩

/-- With a non-zero watermark on the community, every record created by
the shared config loop is strictly newer than the watermark. -/
lemma runConfigsGo_watermark (env : Env) (comm : Community) (id : String)
    (single : Bool) (T : Nat) (hT : T ≠ 0) (hls : comm.lastScrapedAt = some T) :
    ∀ cfgs corpus, ∀ d ∈ (runConfigsGo env comm id single cfgs corpus).2.2.2,
      T < d.originalCreatedUtc := by
  intro cfgs
  induction cfgs with
  | nil => intro corpus d hd; simp [runConfigsGo] at hd
  | cons cfg rest ih =>
    intro corpus d hd
    rw [runConfigsGo] at hd
    split at hd
    · exact ih _ d hd
    · split at hd
      · exact ih _ d hd
      · split at hd
        · exact ih _ d hd
        · rename_i items hsf
          simp only [] at hd
          rcases List.mem_append.mp hd with hd' | hd'
          · obtain ⟨c, hc, he⟩ := createScraped_from_items env comm cfg.platform _ _ _ d hd'
            have hc2 : c ∈ filterNewContent corpus items cfg.platform := by
              split at hc
              · exact List.mem_of_mem_take hc
              · exact hc
            have hcs : c ∈ items := filterNewContent_subset _ _ _ hc2
            have hw := scrapeContent_watermark env.isImg env.rndFill
              (env.trace id cfg.sourceUrl) _ T hT (by simp [hls]) items hsf c hcs
            rw [he]
            exact hw
          · exact ih _ d hd'

/-- C1 (amended): in bulk and single-post modes, for a community whose
watermark `lastScrapedAt` is a non-zero timestamp `T`, every record the
run persists has upstream created timestamp strictly greater than `T`
(the fetched list is passed in full to the dedup/persist stages).  The
authentic mode passes no watermark to its fetch, so the property does not
extend to it. -/
theorem c1_watermark_bulk_single (env : Env) (id : String) (comm : Community)
    (T : Nat) (corpus : List PostRec)
    (hc : env.lookup id = some comm) (hls : comm.lastScrapedAt = some T)
    (hT : T ≠ 0) :
    (∀ r, scrapeCommunity env corpus id = .ok r →
      ∀ d ∈ r.createdRecords, T < d.originalCreatedUtc) ∧
    (∀ r, scrapeSinglePostPerPlatform env corpus id = .ok r →
      ∀ d ∈ r.createdRecords, T < d.originalCreatedUtc) := by
  constructor
  · intro r hr d hd
    unfold scrapeCommunity runCommunity at hr
    rw [hc] at hr
    simp only [] at hr
    split at hr
    · cases hr
    · cases hr
      exact runConfigsGo_watermark env comm id false T hT hls comm.scrapingPlatforms corpus d hd
  · intro r hr d hd
    unfold scrapeSinglePostPerPlatform runCommunity at hr
    rw [hc] at hr
    simp only [] at hr
    split at hr
    · cases hr
    · cases hr
      exact runConfigsGo_watermark env comm id true T hT hls comm.scrapingPlatforms corpus d hd

/-- Witness for C1: the bulk run of `envW` (watermark 10) creates exactly
one record, with upstream timestamp 20 > 10. -/
theorem c1_watermark_bulk_single_witness :
    10 < (((scrapeCommunity envW [] "cw").toOption.getD dfltRun).createdRecords.getD 0
        dfltPost).originalCreatedUtc :=
  (c1_watermark_bulk_single envW "cw" commW 10 [] rfl rfl (by decide)).1
    ((scrapeCommunity envW [] "cw").toOption.getD dfltRun) rfl
    (((scrapeCommunity envW [] "cw").toOption.getD dfltRun).createdRecords.getD 0 dfltPost)
    (by decide)

/-- Community for the C1 counterexample (watermark 10). -/
def commC1 : Community :=
  { id := "c1x", name := "Biz1", isActive := true
    scrapingPlatforms := [⟨"reddit", "https://www.reddit.com/r/business", [], true⟩]
    lastScrapedAt := some 10, postCount := 0, scrapingConfig := none }

/-- Environment for the C1 counterexample: the upstream feed holds one item
with upstream timestamp 5, older than the watermark; it passes the
authenticity and quality gates. -/
def envC1 : Env :=
  { lookup := fun i => if i = "c1x" then some commC1 else none
    trace := fun _ _ => [PageResp.ok [some (sampleRaw "old" "Old thing happened" "" 5)] none]
    users := ["u1"]
    qs := fun _ => 1
    validator := fun _ => ⟨true, "", 1⟩
    proc := fun it => ⟨it.title, it.content, it.tags⟩
    procA := fun it => ⟨it.title, it.content, it.tags, "general", []⟩
    isImg := fun _ => false
    rndFill := fun _ => 0
    rndUser := fun _ => 0
    rndLike := fun _ => 0
    now := 1000 }

/-- C1 counterexample: an authentic-mode run of a community whose
watermark is 10 persists a record with upstream created timestamp 5 ≤ 10
— the authentic entrypoint passes no `minCreatedUtc`, so the watermark is
not enforced there. -/
theorem c1_counterexample :
    commC1.lastScrapedAt = some 10 ∧
    (scrapeAuthenticContent envC1 [] "c1x" 2).toOption.map
        (fun r => r.createdRecords.map (fun d => d.originalCreatedUtc)) = some [5] ∧
    (5 : Nat) ≤ 10 :=
  ⟨rfl, by decide, by decide⟩
